import Mathlib

/-!
Verification development for the Alphaminr editor portal
(`editor_portal.py`, `github_helper.py`).

The portal is a Flask orchestration layer.  We embed each route handler and
helper as a pure Lean function.  Outcomes of calls to external services
(the Railway backend, the GitHub contents API, Mailchimp, Anthropic, the
Premailer transform, the local filesystem) are passed in as explicit
arguments: a completed HTTP response is a value, and a Python exception
raised by an external call is represented with `Except`/`Option` failure.
A handler that lets an exception escape to Flask is a function returning
`Except PyErr _` whose result is `.error _`.
-/

/-- Python truthiness of an optional environment string: `None` and the
empty string are falsy, any other string is truthy. -/
def truthy : Option String → Bool
  | none => false
  | some s => !(s == "")

/-- A JSON scalar value as produced by `jsonify` in the route handlers. -/
inductive JVal where
  | str (s : String)
  | bool (b : Bool)
deriving DecidableEq, BEq

/-- A JSON object body: ordered key/value pairs as passed to `jsonify`. -/
abbrev JObj := List (String × JVal)

/-- Opaque model of a Python exception escaping, or being caught, in a
route handler. -/
inductive PyErr where
  | httpError (code : Nat)
  | otherExn
deriving DecidableEq

/-- Whether a JSON body reports `success: true` (used to state that a
response is, or is not, a success response). -/
def isSuccessResponse (o : JObj) : Bool :=
  o.lookup "success" == some (JVal.bool true)

/-! ## Newsletter store proxy (`editor_portal.py`) -/

/-- The parsed JSON of a completed `GET {railway}/api/newsletters` call:
its HTTP status, the truthiness of the `success` flag, and the
`newsletters` list (items passed through verbatim; we keep them opaque as
strings). -/
structure ListingResponse where
  status : Nat
  success : Bool
  newsletters : List String
deriving DecidableEq

set_option linter.unusedVariables false in
/-- `get_all_newsletters` (editor_portal.py lines 124-154).  The backend
call outcome is the argument: `none` models `requests.get` (or `.json()`)
raising, `some r` a completed response.  `localFiles` models the local
newsletter directory, which the function never reads (no local fallback). -/
def get_all_newsletters (backend : Option ListingResponse)
    (localFiles : List String) : List String :=
  match backend with
  | none => []
  | some r =>
    if r.status == 200 then
      if r.success then r.newsletters else []
    else []

/-- `get_newsletter_content` (editor_portal.py lines 156-192).  The
backend call outcome is the argument: `none` models an exception during
the request, `some (status, text)` a completed response.  Returns the body
on 200 and `none` (Python `None`) on 404, any other status, or exception;
there is no local-file fallback. -/
def get_newsletter_content (backend : Option (Nat × String)) :
    Option String :=
  match backend with
  | none => none
  | some st => if st.1 == 200 then some st.2 else none

/-- The listing call failed: exception, non-200 status, or a negative
`success` flag. -/
def listingFailed : Option ListingResponse → Bool
  | none => true
  | some r => !(r.status == 200) || !r.success

/-- The per-item content call failed: exception or non-200 status. -/
def contentFetchFailed : Option (Nat × String) → Bool
  | none => true
  | some st => !(st.1 == 200)

/-! ## Auth gate (`login_required`, editor_portal.py lines 73-95) -/

/-- The decision taken by the `login_required` wrapper: run the wrapped
handler, or redirect to `url_for('login', next=request.url)`. -/
inductive AuthDecision where
  | allow
  | redirectLogin (next : String)
deriving DecidableEq

/-- `login_required` (editor_portal.py lines 73-95).  `sessionAccess`
models `session.get('logged_in')`: `.error ()` is the `RuntimeError`
branch (session machinery unavailable), `.ok v` the stored value (`none`
when the key is absent). -/
def login_required (editor_password secret_key : Option String)
    (sessionAccess : Except Unit (Option Bool)) (request_url : String) :
    AuthDecision :=
  if !truthy editor_password then .allow
  else if !truthy secret_key then .allow
  else
    match sessionAccess with
    | .error _ => .allow
    | .ok v => if v == some true then .allow else .redirectLogin request_url

/-! ## CSS-inlining stage of `send_newsletter` (editor_portal.py 287-341)

The stage removes `<link>` tags matching the Python regex

  `<link[^>]*href=["ת][^"ת]*newsletter\.css["ת][^>]*>`   (ת = single quote)

with `re.IGNORECASE`, via `re.sub(pattern, '', html)`.  We implement that
regex directly: `re.sub` scans left to right, attempting a leftmost match
at each position; the backtracking engine tries greedy (longest-first)
splits for each `[^…]*`. -/

/-- The single-quote character, `Char.ofNat 39`. -/
def squote : Char := Char.ofNat 39

/-- Case-insensitive character comparison (the regex is compiled with
`re.IGNORECASE`). -/
def charCI (a b : Char) : Bool := a.toLower == b.toLower

/-- Consume a literal (case-insensitively); return the remaining suffix on
a match. -/
def stripCI : List Char → List Char → Option (List Char)
  | [], cs => some cs
  | _ :: _, [] => none
  | p :: ps, c :: cs => if charCI p c then stripCI ps cs else none

/-- Greedy splits for `[^>]*`: every suffix reachable by consuming a
prefix of non-`>` characters, longest consumption first (the order a
backtracking engine tries continuations in). -/
def nonGtSuffixes : List Char → List (List Char)
  | [] => [[]]
  | c :: rest =>
    if c == '>' then [c :: rest]
    else nonGtSuffixes rest ++ [c :: rest]

/-- Greedy splits for `[^"ת]*` (non-quote characters), longest first. -/
def nonQuoteSuffixes : List Char → List (List Char)
  | [] => [[]]
  | c :: rest =>
    if c == '"' || c == squote then [c :: rest]
    else nonQuoteSuffixes rest ++ [c :: rest]

/-- Match `[^>]*>`: consume up to and including the first `>`. -/
def matchToGt : List Char → Option (List Char)
  | [] => none
  | c :: cs => if c == '>' then some cs else matchToGt cs

/-- Match `[^"ת]*newsletter\.css["ת][^>]*>` with greedy backtracking. -/
def tryAfterQuoteOpen (cs : List Char) : Option (List Char) :=
  (nonQuoteSuffixes cs).findSome? fun suf =>
    (stripCI "newsletter.css".data suf).bind fun suf2 =>
      match suf2 with
      | [] => none
      | q :: suf3 =>
        if q == '"' || q == squote then matchToGt suf3 else none

/-- Match `[^>]*href=["ת]` then the rest of the pattern, with greedy
backtracking over the `[^>]*` split. -/
def tryAfterLink (cs : List Char) : Option (List Char) :=
  (nonGtSuffixes cs).findSome? fun suf =>
    (stripCI "href=".data suf).bind fun suf2 =>
      match suf2 with
      | [] => none
      | q :: suf3 =>
        if q == '"' || q == squote then tryAfterQuoteOpen suf3 else none

/-- Attempt the whole link pattern at this position; on success return the
suffix after the match. -/
def tryMatchLink (cs : List Char) : Option (List Char) :=
  (stripCI "<link".data cs).bind tryAfterLink

/-- `re.sub` driver: at each position, if the pattern matches, drop the
matched span and continue after it; otherwise emit the character and
advance.  `fuel` bounds the recursion (each step consumes at least one
character, so `fuel = length` suffices and the exhaustion case is never
reached in `removeNewsletterCssLinks`). -/
def reSubLinks : Nat → List Char → List Char
  | 0, cs => cs
  | _ + 1, [] => []
  | fuel + 1, c :: cs =>
    match tryMatchLink (c :: cs) with
    | some rest => reSubLinks fuel rest
    | none => c :: reSubLinks fuel cs

/-- The `re.sub(r'<link[^>]*href=…newsletter\.css…[^>]*>', '', html,
flags=re.IGNORECASE)` call of `send_newsletter` (lines 302-307). -/
def removeNewsletterCssLinks (s : String) : String :=
  String.mk (reSubLinks s.data.length s.data)

/-- Whether some position of the string matches the newsletter.css
`<link>` pattern. -/
def hasCssLinkAux : List Char → Bool
  | [] => false
  | c :: cs => (tryMatchLink (c :: cs)).isSome || hasCssLinkAux cs

/-- The string contains a `<link>` tag matching the stylesheet pattern. -/
def containsCssLink (s : String) : Bool := hasCssLinkAux s.data

/-- Consume an exact literal; return the remaining suffix on a match. -/
def dropLit : List Char → List Char → Option (List Char)
  | [], cs => some cs
  | _ :: _, [] => none
  | p :: ps, c :: cs => if p == c then dropLit ps cs else none

/-- Python `str.replace`: replace every non-overlapping occurrence of the
pattern, scanning left to right.  `fuel` bounds the recursion; with
`fuel = length` and a non-empty pattern the exhaustion case is never
reached. -/
def pyReplaceAux (pat rep : List Char) : Nat → List Char → List Char
  | 0, cs => cs
  | _ + 1, [] => []
  | fuel + 1, c :: cs =>
    match dropLit pat (c :: cs) with
    | some rest => rep ++ pyReplaceAux pat rep fuel rest
    | none => c :: pyReplaceAux pat rep fuel cs

/-- Python `s.replace(pat, rep)`. -/
def pyReplace (s pat rep : String) : String :=
  String.mk (pyReplaceAux pat.data rep.data s.data.length s.data)

/-- Step 3 of the pipeline: `html.replace('</head>',
'<style type="text/css">' + css + '</style></head>')` (lines 310-315). -/
def injectStyle (html css : String) : String :=
  pyReplace html "</head>"
    ("<style type=\"text/css\">" ++ css ++ "</style></head>")

/-- The body of the `try:` block of the CSS-inlining stage (lines
288-335).  `cssRead` is the outcome of the existence check plus read of
`static/css/newsletter.css` (`.ok none` = file absent, `.ok (some css)` =
read content, `.error ()` = the read raised); `tf` is the Premailer
construction plus `p.transform()` (`.error ()` = it raised).  When the CSS
text is empty no inlining runs and `inlined_html` keeps its initial value
`html_content`. -/
def inlineAttempt (html_content : String)
    (cssRead : Except Unit (Option String))
    (tf : String → Except Unit String) : Except Unit String := do
  let cssOpt ← cssRead
  let css_text := match cssOpt with | none => "" | some t => t
  let html_without_link := removeNewsletterCssLinks html_content
  if css_text == "" then
    pure html_content
  else
    tf (injectStyle html_without_link css_text)

/-- The CSS-inlining stage of `send_newsletter` (lines 287-341):
`inlined_html` defaults to `html_content` and the `except` clause falls
back to it on any failure inside the `try:` block. -/
def inline_stage (html_content : String)
    (cssRead : Except Unit (Option String))
    (tf : String → Except Unit String) : String :=
  match inlineAttempt html_content cssRead tf with
  | .ok s => s
  | .error _ => html_content

/-! ## GitHub commit proxy (`github_helper.py`) -/

/-- Outcome of the completed-or-raised `requests.get(BASE_URL/contents/
path)` call inside `get_file_sha`: a success response carrying the `sha`
field, an `HTTPError` raised by `raise_for_status()` with its status
code, or any other exception (e.g. a connection error). -/
inductive GetOutcome where
  | success (sha : String)
  | httpError (code : Nat)
  | otherExn
deriving DecidableEq

/-- `get_file_sha` (github_helper.py lines 16-25): returns the sha on
success; catches `HTTPError` and maps 404 to `None` (file does not exist
yet); re-raises any other `HTTPError`; lets other exceptions propagate. -/
def get_file_sha (outcome : GetOutcome) : Except PyErr (Option String) :=
  match outcome with
  | .success sha => .ok (some sha)
  | .httpError code => if code == 404 then .ok none else .error (.httpError code)
  | .otherExn => .error .otherExn

/-- The JSON payload of the `requests.put` call in `commit_file`:
`message`, base64 `content`, `branch`, and the `sha` key, which is added
only when the fetched sha is truthy. -/
structure PutRequest where
  path : String
  message : String
  content : String
  branch : String
  sha : Option String
deriving DecidableEq

/-- The parsed body of the PUT response: `["commit"]["sha"]` (read on
success) and `.get("message", …)` (read on failure). -/
structure PutRespBody where
  commit_sha : String
  message : String
deriving DecidableEq

/-- The dict returned by `commit_file`: `{"success": True, "commit_sha":
…}` or `{"error": …}`. -/
inductive CommitResult where
  | success (commit_sha : String)
  | failure (msg : String)
deriving DecidableEq

/-- The environment of `github_helper`: the `GITHUB_TOKEN` variable, the
`base64.b64encode` encoding of the UTF-8 content (external library,
abstracted as a function), and the outcome of each outbound HTTP call,
keyed by what is sent. -/
structure GhEnv where
  token : Option String
  b64 : String → String
  getOutcome : String → GetOutcome
  putOutcome : PutRequest → Except PyErr (Nat × PutRespBody)

/-- Python truthiness guard of `if sha: data["sha"] = sha` in
`commit_file`: the `sha` key is added only for a non-`None`, non-empty
fetched sha. -/
def shaTruthy : Option String → Option String
  | none => none
  | some s => if s == "" then none else some s

/-- `commit_file` (github_helper.py lines 27-57).  Besides the returned
dict we record the PUT request that was issued (`none` when the function
returned before contacting GitHub).  An `Except.error` result is an
exception propagating out of `commit_file` (it installs no handler of its
own). -/
def commit_file (env : GhEnv) (file_path file_content commit_message : String) :
    Except PyErr (CommitResult × Option PutRequest) :=
  if !truthy env.token then
    .ok (.failure "Server is not configured to save files.", none)
  else do
    let content_b64 := env.b64 file_content
    let sha ← get_file_sha (env.getOutcome file_path)
    let shaField := shaTruthy sha
    let req : PutRequest :=
      { path := file_path, message := commit_message, content := content_b64,
        branch := "main", sha := shaField }
    let res ← env.putOutcome req
    if res.1 == 200 || res.1 == 201 then
      .ok (.success res.2.commit_sha, some req)
    else
      .ok (.failure res.2.message, some req)

/-! ## Route handlers (`editor_portal.py`) -/

/-- The JSON of a save request: `request.json.get('html_content')` and
`request.json.get('editor_notes', 'n/a')`. -/
structure SaveReq where
  html_content : Option String
  editor_notes : Option String
deriving DecidableEq

/-- `save_newsletter` (editor_portal.py lines 226-235).  Returns the JSON
body, the HTTP status, and the PUT request made to GitHub (if any); an
`Except.error` result is an exception escaping the handler, which installs
no `try:` of its own around the `commit_file` call. -/
def save_newsletter (env : GhEnv) (newsletter_id : String) (data : SaveReq) :
    Except PyErr (JObj × Nat × Option PutRequest) :=
  match data.html_content with
  | none => .ok ([("error", .str "No content")], 400, none)
  | some c =>
    if c == "" then .ok ([("error", .str "No content")], 400, none)
    else do
      let file_path := "newsletters/" ++ newsletter_id
      let commit_message :=
        "docs: update " ++ newsletter_id ++ "\n\nNotes: " ++
          (match data.editor_notes with | some n => n | none => "n/a")
      let res ← commit_file env file_path c commit_message
      match res.1 with
      | .success _ =>
        .ok ([("success", .bool true), ("message", .str "Saved to GitHub.")],
          200, res.2)
      | .failure e =>
        .ok ([("error", .str ("GitHub Save Failed: " ++ e))], 500, res.2)

/-- The result of rendering the `/editor/<id>` route: a 404 page or a
render of `editor.html` with the newsletter id and content. -/
inductive EditorResult where
  | notFound
  | render (id content : String)
deriving DecidableEq

/-- `editor` route (editor_portal.py lines 218-223): 404 only when the
content is `None` (an empty string renders). -/
def editor (backend : Option (Nat × String)) (newsletter_id : String) :
    EditorResult :=
  match get_newsletter_content backend with
  | none => .notFound
  | some content => .render newsletter_id content

/-- Outcome of the external work in the real branch of
`ai_review_newsletter` (BeautifulSoup text extraction, prompt assembly and
`client.messages.create`): the review text, or `str(e)` of the exception
the surrounding `try:` catches. -/
structure AiClient where
  reviewOutcome : String → Except String String

/-- `ai_review_newsletter` (editor_portal.py lines 237-272): 404 on falsy
content, canned success when `MOCK_MODE` or no Anthropic client, otherwise
the external call under a catch-all `except` producing a 500 JSON body. -/
def ai_review_newsletter (backend : Option (Nat × String))
    (mock_mode : Bool) (client : Option AiClient) : JObj × Nat :=
  match get_newsletter_content backend with
  | none => ([("error", .str "Not found")], 404)
  | some html_content =>
    if html_content == "" then ([("error", .str "Not found")], 404)
    else if mock_mode then
      ([("success", .bool true), ("review", .str "[MOCK] Looks great!")], 200)
    else
      match client with
      | none =>
        ([("success", .bool true), ("review", .str "[MOCK] Looks great!")], 200)
      | some c =>
        match c.reviewOutcome html_content with
        | .ok text => ([("success", .bool true), ("review", .str text)], 200)
        | .error e => ([("error", .str ("AI review failed: " ++ e))], 500)

/-- An outbound Mailchimp API call made by `send_newsletter`, recorded in
the order it was issued. -/
inductive McCall where
  | create
  | setContent (campaign_id html : String)
  | sendTest (campaign_id : String)
  | send (campaign_id : String)
deriving DecidableEq

/-- A Mailchimp call outcome: success value, an `ApiClientError` with its
`.text` (the only exception the route catches), or any other exception. -/
inductive McOutcome (α : Type) where
  | ok (a : α)
  | apiError (text : String)
  | otherExn
deriving DecidableEq

/-- The configured Mailchimp client, abstracted as the outcome of each of
the campaign operations `send_newsletter` performs. -/
structure McClient where
  createOutcome : McOutcome String
  setContentOutcome : String → String → McOutcome Unit
  sendTestOutcome : String → McOutcome Unit
  sendOutcome : String → McOutcome Unit

/-- The 500 JSON body of the `except ApiClientError` clause. -/
def mailchimpErrorBody (t : String) : JObj × Nat :=
  ([("error", JVal.str ("Mailchimp error: " ++ t))], 500)

/-- `send_newsletter` (editor_portal.py lines 274-369).  Inputs: the
backend fetch outcome, the CSS-read and Premailer outcomes of the inlining
stage, `MOCK_MODE`, the Mailchimp client (`none` when unavailable or not
configured), and `request.json.get('test_mode')`.  Returns the handler
outcome (`Except.error` = an exception not caught by the route, i.e.
anything other than `ApiClientError` in the Mailchimp stage) together with
the list of Mailchimp calls issued. -/
def send_newsletter (backend : Option (Nat × String))
    (cssRead : Except Unit (Option String))
    (tf : String → Except Unit String)
    (mock_mode : Bool) (mailchimp : Option McClient) (test_mode : Bool) :
    Except PyErr (JObj × Nat) × List McCall :=
  match get_newsletter_content backend with
  | none => (.ok ([("error", .str "Newsletter not found")], 404), [])
  | some html_content =>
    if html_content == "" then
      (.ok ([("error", .str "Newsletter not found")], 404), [])
    else
      let inlined_html := inline_stage html_content cssRead tf
      if mock_mode then
        let msg := if test_mode then "Test email sent!" else "Newsletter sent!"
        (.ok ([("success", .bool true),
              ("message", .str ("[MOCK] " ++ msg))], 200), [])
      else
        match mailchimp with
        | none =>
          let msg := if test_mode then "Test email sent!" else "Newsletter sent!"
          (.ok ([("success", .bool true),
                ("message", .str ("[MOCK] " ++ msg))], 200), [])
        | some mc =>
          match mc.createOutcome with
          | .apiError t => (.ok (mailchimpErrorBody t), [.create])
          | .otherExn => (.error .otherExn, [.create])
          | .ok campaign_id =>
            match mc.setContentOutcome campaign_id inlined_html with
            | .apiError t =>
              (.ok (mailchimpErrorBody t),
                [.create, .setContent campaign_id inlined_html])
            | .otherExn =>
              (.error .otherExn, [.create, .setContent campaign_id inlined_html])
            | .ok _ =>
              if test_mode then
                match mc.sendTestOutcome campaign_id with
                | .apiError t =>
                  (.ok (mailchimpErrorBody t),
                    [.create, .setContent campaign_id inlined_html,
                      .sendTest campaign_id])
                | .otherExn =>
                  (.error .otherExn,
                    [.create, .setContent campaign_id inlined_html,
                      .sendTest campaign_id])
                | .ok _ =>
                  (.ok ([("success", .bool true),
                        ("message", .str "Test email sent!")], 200),
                    [.create, .setContent campaign_id inlined_html,
                      .sendTest campaign_id])
              else
                match mc.sendOutcome campaign_id with
                | .apiError t =>
                  (.ok (mailchimpErrorBody t),
                    [.create, .setContent campaign_id inlined_html,
                      .send campaign_id])
                | .otherExn =>
                  (.error .otherExn,
                    [.create, .setContent campaign_id inlined_html,
                      .send campaign_id])
                | .ok _ =>
                  (.ok ([("success", .bool true),
                        ("message", .str "Newsletter sent successfully!")], 200),
                    [.create, .setContent campaign_id inlined_html,
                      .send campaign_id])

/-! ## Shared example environments used by witnesses -/

/-- A `GhEnv` with no `GITHUB_TOKEN` configured. -/
def noTokenEnv : GhEnv :=
  { token := none, b64 := fun s => s,
    getOutcome := fun _ => GetOutcome.httpError 404,
    putOutcome := fun _ => Except.ok (500, { commit_sha := "", message := "" }) }

/-- A fully configured `GhEnv` whose remote holds the target file (sha
`oldsha`) and accepts the PUT with 201. -/
def exEnv : GhEnv :=
  { token := some "ghp-token", b64 := fun s => s,
    getOutcome := fun _ => GetOutcome.success "oldsha",
    putOutcome := fun _ => Except.ok (201, { commit_sha := "newsha", message := "" }) }

/-! ## Claims -/

/-- Claim C1: while the backend call fails (network error or exception,
non-200 status, or a listing whose success flag is negative),
`get_all_newsletters` returns the empty sequence and
`get_newsletter_content` returns `None`; neither raises (both are total
functions into plain values) and neither reads the local files (the
listing result is the same for every `localFiles`). -/
theorem C1_backend_failure_degrades
    (lb : Option ListingResponse) (localFiles : List String)
    (cb : Option (Nat × String))
    (h1 : listingFailed lb = true) (h2 : contentFetchFailed cb = true) :
    get_all_newsletters lb localFiles = [] ∧
      get_newsletter_content cb = none := by
  constructor
  · match lb with
    | none => rfl
    | some r =>
      simp only [listingFailed, Bool.or_eq_true, Bool.not_eq_true'] at h1
      rcases h1 with h | h
      · simp [get_all_newsletters, h]
      · cases hst : (r.status == 200) <;> simp [get_all_newsletters, hst, h]
  · match cb with
    | none => rfl
    | some st =>
      simp only [contentFetchFailed, Bool.not_eq_true'] at h2
      simp [get_newsletter_content, h2]

/-- Witness for C1 at a concrete failing backend: an exception on the
listing call and a 500 on the content call. -/
theorem C1_backend_failure_degrades_witness :
    get_all_newsletters none ["local.html"] = [] ∧
      get_newsletter_content (some (500, "oops")) = none :=
  C1_backend_failure_degrades none ["local.html"] (some (500, "oops"))
    (by decide) (by decide)

/-- Claim C2: whenever the CSS-inlining stage of `send_newsletter` fails
(the CSS read, or the Premailer transform, raises — `inlineAttempt`
results in an exception), the HTML the pipeline goes on to use equals the
original fetched content byte-for-byte. -/
theorem C2_inline_failure_fallback (html_content : String)
    (cssRead : Except Unit (Option String))
    (tf : String → Except Unit String)
    (hfail : inlineAttempt html_content cssRead tf = Except.error ()) :
    inline_stage html_content cssRead tf = html_content := by
  unfold inline_stage
  rw [hfail]

/-- Witness for C2: a Premailer transform that raises on the given
markup; the stage output is the original content. -/
theorem C2_inline_failure_fallback_witness :
    inlineAttempt "<html><head></head><body>x</body></html>"
        (Except.ok (some "body")) (fun _ => Except.error ())
      = Except.error ()
    ∧ inline_stage "<html><head></head><body>x</body></html>"
        (Except.ok (some "body")) (fun _ => Except.error ())
      = "<html><head></head><body>x</body></html>" :=
  ⟨rfl,
    C2_inline_failure_fallback "<html><head></head><body>x</body></html>"
      (Except.ok (some "body")) (fun _ => Except.error ()) rfl⟩

/-- Claim C5: the `login_required` gate.  With no editor password the
handler runs; with a password but no session secret key the handler runs
(fail-open); otherwise, for a functioning session, the handler runs
exactly when `session.logged_in` is true and any other request is
redirected to the login form carrying the requested URL as `next`. -/
theorem C5_auth_gate (pw sk : Option String) (url : String) :
    (truthy pw = false →
      ∀ sa : Except Unit (Option Bool), login_required pw sk sa url = .allow)
    ∧ (truthy pw = true → truthy sk = false →
      ∀ sa : Except Unit (Option Bool), login_required pw sk sa url = .allow)
    ∧ (truthy pw = true → truthy sk = true →
      ∀ v : Option Bool,
        (login_required pw sk (Except.ok v) url = .allow ↔ v = some true)
        ∧ (v ≠ some true →
          login_required pw sk (Except.ok v) url = .redirectLogin url)) := by
  refine ⟨?_, ?_, ?_⟩
  · intro hpw sa
    simp [login_required, hpw]
  · intro hpw hsk sa
    simp [login_required, hpw, hsk]
  · intro hpw hsk v
    constructor
    · constructor
      · intro h
        by_contra hv
        simp [login_required, hpw, hsk, hv] at h
      · intro hv
        simp [login_required, hpw, hsk, hv]
    · intro hv
      simp [login_required, hpw, hsk, hv]

/-- Witness for C5: concrete configuration with a password and secret key
set; a request with no session flag is redirected with the original URL,
a logged-in request is allowed, and with no password at all every request
is allowed. -/
theorem C5_auth_gate_witness :
    login_required (some "pw") (some "sk") (Except.ok none) "/editor/a.html"
      = AuthDecision.redirectLogin "/editor/a.html"
    ∧ login_required (some "pw") (some "sk") (Except.ok (some true))
        "/editor/a.html" = AuthDecision.allow
    ∧ login_required none (some "sk") (Except.ok none) "/editor/a.html"
      = AuthDecision.allow :=
  ⟨((C5_auth_gate (some "pw") (some "sk") "/editor/a.html").2.2 (by decide)
      (by decide) none).2 (by decide),
   ((C5_auth_gate (some "pw") (some "sk") "/editor/a.html").2.2 (by decide)
      (by decide) (some true)).1.mpr rfl,
   (C5_auth_gate none (some "sk") "/editor/a.html").1 (by decide)
      (Except.ok none)⟩

/-- Claim C7: a save request whose `html_content` is missing or empty
returns HTTP 400 with no commit call: no PUT request is recorded, and the
response does not depend on the GitHub environment at all (the store is
never contacted). -/
theorem C7_empty_content_400 (env : GhEnv) (newsletter_id : String)
    (data : SaveReq)
    (h : data.html_content = none ∨ data.html_content = some "") :
    save_newsletter env newsletter_id data
      = Except.ok ([("error", JVal.str "No content")], 400, none) := by
  rcases h with h | h <;> simp [save_newsletter, h]

/-- Witness for C7: empty content against a fully configured environment
still yields the 400 with no PUT. -/
theorem C7_empty_content_400_witness :
    save_newsletter exEnv "abc.html"
        { html_content := some "", editor_notes := some "n" }
      = Except.ok ([("error", JVal.str "No content")], 400, none) :=
  C7_empty_content_400 exEnv "abc.html"
    { html_content := some "", editor_notes := some "n" } (Or.inr rfl)

/-- The PUT request `commit_file` assembles for a save of `content` to
`newsletters/<id>` with the commit message built by `save_newsletter`. -/
def mkPutReq (env : GhEnv) (id content notes : String)
    (shaField : Option String) : PutRequest :=
  { path := "newsletters/" ++ id,
    message := "docs: update " ++ id ++ "\n\nNotes: " ++ notes,
    content := env.b64 content, branch := "main", sha := shaField }

/-- Claim C8: a save with non-empty content while a token is configured
first fetches the revision marker for `newsletters/<id>` (a 404 yields no
marker, `shaTruthy none = none`; otherwise the marker is included), then
issues the PUT whose message is exactly `docs: update <id>\n\nNotes:
<notes>` (so it contains the id and the notes), and on a 201 acceptance
responds `{"success": true, "message": "Saved to GitHub."}`. -/
theorem C8_save_commits (env : GhEnv) (id content notes bodysha : String)
    (shaRes : Option String)
    (htok : truthy env.token = true)
    (hc : content ≠ "")
    (hget : get_file_sha (env.getOutcome ("newsletters/" ++ id))
      = Except.ok shaRes)
    (hput : env.putOutcome (mkPutReq env id content notes (shaTruthy shaRes))
      = Except.ok (201, { commit_sha := bodysha, message := "" })) :
    save_newsletter env id
        { html_content := some content, editor_notes := some notes }
      = Except.ok ([("success", JVal.bool true),
          ("message", JVal.str "Saved to GitHub.")], 200,
          some (mkPutReq env id content notes (shaTruthy shaRes)))
    ∧ (mkPutReq env id content notes (shaTruthy shaRes)).message
        = "docs: update " ++ id ++ "\n\nNotes: " ++ notes
    ∧ (shaRes = none →
        (mkPutReq env id content notes (shaTruthy shaRes)).sha = none) := by
  refine ⟨?_, rfl, fun h => by simp [mkPutReq, h, shaTruthy]⟩
  have hc' : (content == "") = false := by
    simpa using hc
  simp only [save_newsletter, hc', Bool.false_eq_true, if_false, commit_file,
    htok, Bool.not_true, bind, Except.bind]
  rw [hget]
  simp only [mkPutReq] at hput
  simp [hput, mkPutReq]

/-- Witness for C8 at the spec example: saving `<p>hi</p>` to `abc.html`
with notes `fix typo` against `exEnv` commits and reports success. -/
theorem C8_save_commits_witness :
    save_newsletter exEnv "abc.html"
        { html_content := some "<p>hi</p>", editor_notes := some "fix typo" }
      = Except.ok ([("success", JVal.bool true),
          ("message", JVal.str "Saved to GitHub.")], 200,
          some (mkPutReq exEnv "abc.html" "<p>hi</p>" "fix typo"
            (shaTruthy (some "oldsha")))) :=
  (C8_save_commits exEnv "abc.html" "<p>hi</p>" "fix typo" "newsha"
    (some "oldsha") rfl (by decide) rfl rfl).1

/-- Claim C9: a send request with `test_mode` true while in simulated
mode (`MOCK_MODE` set, or no Mailchimp client) responds
`{"success": true, "message": "[MOCK] Test email sent!"}` and issues no
Mailchimp call. -/
theorem C9_mock_test_send (backend : Option (Nat × String)) (html : String)
    (cssRead : Except Unit (Option String))
    (tf : String → Except Unit String)
    (mock_mode : Bool) (mailchimp : Option McClient)
    (hb : get_newsletter_content backend = some html) (hh : html ≠ "")
    (hsim : mock_mode = true ∨ mailchimp = none) :
    send_newsletter backend cssRead tf mock_mode mailchimp true
      = (Except.ok ([("success", JVal.bool true),
          ("message", JVal.str "[MOCK] Test email sent!")], 200), []) := by
  rcases hsim with h | h <;>
    simp [send_newsletter, hb, hh, h]

/-- Witness for C9: concrete simulated send (no Mailchimp client) of a
fetched newsletter. -/
theorem C9_mock_test_send_witness :
    send_newsletter (some (200, "<p>x</p>")) (Except.ok none) Except.ok
        false none true
      = (Except.ok ([("success", JVal.bool true),
          ("message", JVal.str "[MOCK] Test email sent!")], 200), []) :=
  C9_mock_test_send (some (200, "<p>x</p>")) "<p>x</p>" (Except.ok none)
    Except.ok false none rfl (by decide) (Or.inr rfl)

/-- Claim C10: a backend 200 with an empty body makes
`get_newsletter_content` return the empty string, which the interface
then treats inconsistently: the editor page renders it (its check is
`content is None`), while the send and AI-review routes report it as not
found with 404 (their checks are falsiness). -/
theorem C10_empty_body_inconsistency :
    get_newsletter_content (some (200, "")) = some ""
    ∧ editor (some (200, "")) "abc.html" = EditorResult.render "abc.html" ""
    ∧ (send_newsletter (some (200, "")) (Except.ok none) Except.ok
        false none false).1
      = Except.ok ([("error", JVal.str "Newsletter not found")], 404)
    ∧ ai_review_newsletter (some (200, "")) false none
      = ([("error", JVal.str "Not found")], 404) :=
  ⟨rfl, rfl, rfl, rfl⟩

/-- Counterexample to claim C3: with the version-control token missing,
`save_newsletter` of non-empty content does not degrade to a mocked
success — it returns an HTTP 500 error body. -/
theorem C3_counterexample :
    save_newsletter noTokenEnv "abc.html"
        { html_content := some "<p>hi</p>", editor_notes := some "fix typo" }
      = Except.ok ([("error",
          JVal.str "GitHub Save Failed: Server is not configured to save files.")],
          500, none)
    ∧ isSuccessResponse
        [("error",
          JVal.str "GitHub Save Failed: Server is not configured to save files.")]
      = false := by
  exact ⟨rfl, by decide⟩

/-- Claim C3 amended: a missing email-platform key (no Mailchimp client)
and a missing AI key (no Anthropic client) degrade the send and review
operations to mocked successes, but a missing version-control token does
not: `save_newsletter` returns a 500 error response. -/
theorem C3_amended_mock_degradation
    (backend : Option (Nat × String)) (html : String)
    (cssRead : Except Unit (Option String))
    (tf : String → Except Unit String)
    (mock1 mock2 test_mode : Bool)
    (backend2 : Option (Nat × String)) (html2 : String)
    (env : GhEnv) (id : String) (data : SaveReq) (c : String)
    (hb : get_newsletter_content backend = some html) (hh : html ≠ "")
    (hb2 : get_newsletter_content backend2 = some html2) (hh2 : html2 ≠ "")
    (htok : truthy env.token = false)
    (hc : data.html_content = some c) (hc2 : c ≠ "") :
    send_newsletter backend cssRead tf mock1 none test_mode
      = (Except.ok ([("success", JVal.bool true),
          ("message", JVal.str ("[MOCK] " ++
            (if test_mode then "Test email sent!" else "Newsletter sent!")))],
          200), [])
    ∧ ai_review_newsletter backend2 mock2 none
      = ([("success", JVal.bool true),
          ("review", JVal.str "[MOCK] Looks great!")], 200)
    ∧ save_newsletter env id data
      = Except.ok ([("error",
          JVal.str "GitHub Save Failed: Server is not configured to save files.")],
          500, none) := by
  refine ⟨?_, ?_, ?_⟩
  · cases mock1 <;> simp [send_newsletter, hb, hh]
  · cases mock2 <;> simp [ai_review_newsletter, hb2, hh2]
  · have hc' : (c == "") = false := by simpa using hc2
    simp [save_newsletter, hc, hc', commit_file, htok, bind, Except.bind]

/-- Witness for the amended C3 at concrete inputs. -/
theorem C3_amended_mock_degradation_witness :
    send_newsletter (some (200, "<p>x</p>")) (Except.ok none) Except.ok
        false none true
      = (Except.ok ([("success", JVal.bool true),
          ("message", JVal.str ("[MOCK] " ++
            (if true then "Test email sent!" else "Newsletter sent!")))],
          200), [])
    ∧ ai_review_newsletter (some (200, "<p>x</p>")) false none
      = ([("success", JVal.bool true),
          ("review", JVal.str "[MOCK] Looks great!")], 200)
    ∧ save_newsletter noTokenEnv "abc.html"
        { html_content := some "<p>hi</p>", editor_notes := some "fix typo" }
      = Except.ok ([("error",
          JVal.str "GitHub Save Failed: Server is not configured to save files.")],
          500, none) :=
  C3_amended_mock_degradation (some (200, "<p>x</p>")) "<p>x</p>"
    (Except.ok none) Except.ok false false true
    (some (200, "<p>x</p>")) "<p>x</p>"
    noTokenEnv "abc.html"
    { html_content := some "<p>hi</p>", editor_notes := some "fix typo" }
    "<p>hi</p>" rfl (by decide) rfl (by decide) rfl rfl (by decide)

/-- A configured `GhEnv` whose revision-marker fetch comes back as a 403
`HTTPError`: `get_file_sha` re-raises it. -/
def badShaEnv : GhEnv :=
  { token := some "ghp-token", b64 := fun s => s,
    getOutcome := fun _ => GetOutcome.httpError 403,
    putOutcome := fun _ => Except.ok (201, { commit_sha := "newsha", message := "" }) }

/-- Counterexample to claim C4: the `save_newsletter` handler installs no
`try:` around its commit stage, so the 403 `HTTPError` re-raised by
`get_file_sha` escapes the route handler uncaught (the handler outcome is
the propagating exception, not a JSON error body). -/
theorem C4_counterexample :
    save_newsletter badShaEnv "abc.html"
        { html_content := some "<p>hi</p>", editor_notes := some "fix typo" }
      = Except.error (PyErr.httpError 403) := rfl

/-- Claim C4 amended: exception handling at the route boundary is not
universal.  `save_newsletter` lets any non-404 `HTTPError` from the
revision fetch escape uncaught; `send_newsletter`'s email stage catches
only the platform's `ApiClientError` (converted to a JSON 500 body) and
lets any other exception escape. -/
theorem C4_amended_route_exceptions
    (env : GhEnv) (id c notes : String) (code : Nat)
    (backend : Option (Nat × String)) (html t : String)
    (cssRead : Except Unit (Option String))
    (tf : String → Except Unit String)
    (mc mc2 : McClient) (test_mode : Bool)
    (htok : truthy env.token = true)
    (hc : c ≠ "")
    (hget : env.getOutcome ("newsletters/" ++ id) = GetOutcome.httpError code)
    (hcode : (code == 404) = false)
    (hb : get_newsletter_content backend = some html) (hh : html ≠ "")
    (hmc : mc.createOutcome = McOutcome.apiError t)
    (hmc2 : mc2.createOutcome = McOutcome.otherExn) :
    save_newsletter env id { html_content := some c, editor_notes := some notes }
      = Except.error (PyErr.httpError code)
    ∧ send_newsletter backend cssRead tf false (some mc) test_mode
      = (Except.ok ([("error", JVal.str ("Mailchimp error: " ++ t))], 500),
          [McCall.create])
    ∧ send_newsletter backend cssRead tf false (some mc2) test_mode
      = (Except.error PyErr.otherExn, [McCall.create]) := by
  refine ⟨?_, ?_, ?_⟩
  · have hc' : (c == "") = false := by simpa using hc
    simp [save_newsletter, hc', commit_file, htok, get_file_sha, hget, hcode,
      bind, Except.bind, mailchimpErrorBody]
  · simp [send_newsletter, hb, hh, hmc, mailchimpErrorBody]
  · simp [send_newsletter, hb, hh, hmc2]

/-- A Mailchimp client whose campaign creation raises an
`ApiClientError`. -/
def apiErrClient : McClient :=
  { createOutcome := McOutcome.apiError "invalid list id",
    setContentOutcome := fun _ _ => McOutcome.ok (),
    sendTestOutcome := fun _ => McOutcome.ok (),
    sendOutcome := fun _ => McOutcome.ok () }

/-- A Mailchimp client whose campaign creation raises an exception that is
not an `ApiClientError`. -/
def otherErrClient : McClient :=
  { createOutcome := McOutcome.otherExn,
    setContentOutcome := fun _ _ => McOutcome.ok (),
    sendTestOutcome := fun _ => McOutcome.ok (),
    sendOutcome := fun _ => McOutcome.ok () }

/-- Witness for the amended C4 at concrete inputs. -/
theorem C4_amended_route_exceptions_witness :
    save_newsletter badShaEnv "abc.html"
        { html_content := some "<p>hi</p>", editor_notes := some "n" }
      = Except.error (PyErr.httpError 403)
    ∧ send_newsletter (some (200, "<p>x</p>")) (Except.ok none) Except.ok
        false (some apiErrClient) false
      = (Except.ok ([("error",
          JVal.str ("Mailchimp error: " ++ "invalid list id"))], 500),
          [McCall.create])
    ∧ send_newsletter (some (200, "<p>x</p>")) (Except.ok none) Except.ok
        false (some otherErrClient) false
      = (Except.error PyErr.otherExn, [McCall.create]) :=
  C4_amended_route_exceptions badShaEnv "abc.html" "<p>hi</p>" "n" 403
    (some (200, "<p>x</p>")) "<p>x</p>" "invalid list id"
    (Except.ok none) Except.ok apiErrClient otherErrClient false
    rfl (by decide) rfl (by decide) rfl (by decide) rfl rfl

/-- Backend HTML carrying a `<link>` tag that references
`newsletter.css`, as in the spec example. -/
def exLinkHtml : String :=
  "<html><head><link rel=\"stylesheet\" href=\"newsletter.css\"></head><body>x</body></html>"

/-- A Mailchimp client that accepts every operation, used to observe the
HTML submitted via `campaigns.set_content`. -/
def okClient : McClient :=
  { createOutcome := McOutcome.ok "cid",
    setContentOutcome := fun _ _ => McOutcome.ok (),
    sendTestOutcome := fun _ => McOutcome.ok (),
    sendOutcome := fun _ => McOutcome.ok () }

/-- Counterexample to claim C6: when the CSS asset is absent
(`cssRead = .ok none`), the pipeline discards the link-stripped string
and keeps the original content, so the HTML submitted to the email
platform (observed in the `set_content` call) still contains a `<link>`
tag matching the newsletter.css pattern. -/
theorem C6_counterexample :
    inline_stage exLinkHtml (Except.ok none) (fun s => Except.ok s)
      = exLinkHtml
    ∧ containsCssLink exLinkHtml = true
    ∧ (send_newsletter (some (200, exLinkHtml)) (Except.ok none) Except.ok
        false (some okClient) false).2
      = [McCall.create, McCall.setContent "cid" exLinkHtml,
          McCall.send "cid"] := by
  exact ⟨rfl, by decide, rfl⟩

/-- Claim C6 amended: link removal happens before inlining — when the CSS
asset is present (non-empty) and the Premailer transform succeeds, the
HTML handed to the transform is the fetched content with the
pattern-matched `<link>` tags removed and the CSS injected before
`</head>`, and the pipeline output is the transform result; when the
asset is absent, the original content (its `<link>` tags included) is
used unchanged, and whether the output contains `style=` attributes is up
to the external inliner. -/
theorem C6_amended_link_removal (html css out : String)
    (tf : String → Except Unit String)
    (hcss : css ≠ "")
    (hok : tf (injectStyle (removeNewsletterCssLinks html) css)
      = Except.ok out) :
    inline_stage html (Except.ok (some css)) tf = out
    ∧ (∀ tf2 : String → Except Unit String,
        inline_stage html (Except.ok none) tf2 = html) := by
  constructor
  · have hcss' : (css == "") = false := by simpa using hcss
    simp [inline_stage, inlineAttempt, hcss', hok, bind, Except.bind]
  · intro tf2
    rfl

/-- Witness for the amended C6 at the spec example: with the CSS asset
present and an identity transform, the stage output is the link-stripped,
style-injected document, and that document no longer matches the
newsletter.css link pattern. -/
theorem C6_amended_link_removal_witness :
    inline_stage exLinkHtml (Except.ok (some "body")) Except.ok
      = injectStyle (removeNewsletterCssLinks exLinkHtml) "body"
    ∧ containsCssLink (injectStyle (removeNewsletterCssLinks exLinkHtml) "body")
      = false :=
  ⟨(C6_amended_link_removal exLinkHtml "body"
      (injectStyle (removeNewsletterCssLinks exLinkHtml) "body")
      Except.ok (by decide) rfl).1,
    by decide⟩
